import Mathlib

/-!
Shallow embedding of the conversation orchestration engine of the
Autonomous-Customer-Success-Swarm repository
(backend/app/orchestrator/{guard,graph,runner,escalation}.py,
backend/app/storage/memory.py, backend/app/api/message.py and the four
agents), together with theorems settling the frozen claims about it.

Python dictionaries holding the conversation state are modelled as a
structure whose optional keys are `Option` fields; a key that a replacement
dict omits is the field's default value (`none`, `[]`, `false`), exactly as
a later `dict.get` with a default would observe it.  Collaborator calls
(intent classification, order lookup, the resolution LLM) are parameters of
the embedded functions, as the spec declares them external.  Exceptions of
a wrapped step are modelled by `Except`.
-/

namespace ACSS

/-- Result of a policy check, stored under `entities["policy_result"]`
(message.py lines 1040-1044: allowed / reason / policy_type). -/
structure PolicyResult where
  allowed : Bool
  reason : String
  policy_type : Option String
deriving Repr, DecidableEq

/-- Order snapshot as returned by `fetch_order_details` and stored under
`entities["order_details"]`.  Only the keys the orchestrator and the
message routes read are modelled; the mapping is open in the source. -/
structure OrderDetails where
  order_id : Option String := none
  product : Option String := none
  status : Option String := none
  amount : Option Int := none
  quantity : Option Nat := none
  description : Option String := none
deriving Repr, DecidableEq

/-- The `entities` open mapping of a conversation state.  Fields default to
`none` because a fresh dict simply lacks the keys.  Keys the claims never
read (`query`, `triage_summary`, `triage_confidence`, `action`) are
omitted. -/
structure Entities where
  order_id : Option String := none
  order_details : Option OrderDetails := none
  pending_intent : Option String := none
  confirmation_status : Option String := none
  policy_result : Option PolicyResult := none
  user_issue : Option String := none
  intent : Option String := none
  urgency : Option String := none
  user_email : Option String := none
deriving Repr, DecidableEq

/-- One conversation state record (`_STORE[conversation_id]`), with the
fields of runner.py lines 29-46.  `current_state` is the phase string and
`attempts` the per-step invocation counts (`step_invocation_counts` of the
spec).  A dict that omits a key is modelled by the default value. -/
structure ConvState where
  conversation_id : String := ""
  current_state : String := ""
  user_message : String := ""
  intent : Option String := none
  urgency : Option String := none
  entities : Entities := {}
  attempts : List (String × Nat) := []
  agents_called : List String := []
  last_error : Option String := none
  reply : Option String := none
  status : String := ""
  awaiting_order_id : Bool := false
  awaiting_confirmation : Bool := false
  pending_action : Option String := none
deriving Repr, DecidableEq

/-- `state["attempts"].get(name, 0)`. -/
def getCount (a : List (String × Nat)) (name : String) : Nat :=
  (a.lookup name).getD 0

/-- `state["attempts"][name] = v` on the dict modelled as an
association list: replace the first binding or append a new one. -/
def setCount (a : List (String × Nat)) (name : String) (v : Nat) :
    List (String × Nat) :=
  match a with
  | [] => [(name, v)]
  | (k, n) :: rest =>
      if k = name then (k, v) :: rest else (k, n) :: setCount rest name v

/-- `sum(state.get("attempts", {}).values())`. -/
def sumCounts (a : List (String × Nat)) : Nat :=
  (a.map (fun p => p.2)).sum

/-- Python truthiness of an optional string (`None` and `""` are falsy). -/
def truthyOptStr : Option String → Bool
  | none => false
  | some s => !(s == "")

/-- guard.py line 1. -/
def MAX_AGENT_CALLS : Nat := 2

/-- guard.py `agent_guard(agent_name)` applied to a step `f`
(lines 9-41).  The wrapped step is total: an exception of `f` is the
`.error` case and is converted to a handoff outcome.  The mutations the
wrapper makes before calling `f` (count increment, audit append) are kept
in the error outcome, as they are in the mutable Python state. -/
def agent_guard (agent_name : String)
    (f : ConvState → Except String ConvState) (state : ConvState) :
    ConvState :=
  let count := getCount state.attempts agent_name
  if MAX_AGENT_CALLS ≤ count then
    { state with
      current_state := "HUMAN_HANDOFF"
      status := "handoff"
      last_error := some (agent_name ++ " exceeded retry limit (" ++
        toString MAX_AGENT_CALLS ++ " attempts)") }
  else
    let state1 :=
      { state with
        attempts := setCount state.attempts agent_name (count + 1)
        agents_called := state.agents_called ++ [agent_name] }
    match f state1 with
    | .ok s => s
    | .error e =>
        { state1 with
          last_error := some (agent_name ++ " error: " ++ e)
          current_state := "HUMAN_HANDOFF"
          status := "handoff" }

/-- escalation.py `should_escalate` (lines 1-23). -/
def should_escalate (state : ConvState) : Bool :=
  if state.current_state == "HUMAN_HANDOFF" then true
  else if truthyOptStr state.last_error then true
  else if 5 < sumCounts state.attempts then true
  else false

/-- runner.py line 69: default apology substituted when escalating with an
empty reply. -/
def ESCALATION_REPLY : String :=
  "I apologize, but I need to escalate this to a human agent for better assistance. Someone will get back to you shortly."

/-- runner.py lines 64-69: the escalation backstop applied once to the
graph result. -/
def apply_escalation (result : ConvState) : ConvState :=
  if should_escalate result then
    let r := { result with status := "handoff", current_state := "HUMAN_HANDOFF" }
    if truthyOptStr r.reply then r else { r with reply := some ESCALATION_REPLY }
  else result

/-- graph.py `should_continue_to_database` (lines 13-23). -/
def should_continue_to_database (state : ConvState) : String :=
  if state.current_state == "HUMAN_HANDOFF" then "end"
  else if state.current_state == "DATA_FETCH" then "database"
  else "end"

/-- graph.py `should_continue_to_policy` (lines 26-36). -/
def should_continue_to_policy (state : ConvState) : String :=
  if state.current_state == "HUMAN_HANDOFF" then "end"
  else if state.current_state == "POLICY_CHECK" then "policy"
  else "end"

/-- graph.py `should_continue_to_resolution` (lines 39-49). -/
def should_continue_to_resolution (state : ConvState) : String :=
  if state.current_state == "HUMAN_HANDOFF" then "end"
  else if state.current_state == "RESOLUTION" then "resolution"
  else "end"

/-- graph.py `build_graph` (lines 65-121): the compiled workflow,
parameterised by the four (unguarded) step bodies.  Entry point is triage;
each conditional edge either continues or ends. -/
def run_graph (triage database policy resolution :
    ConvState → Except String ConvState) (state : ConvState) : ConvState :=
  let s1 := agent_guard "triage" triage state
  if should_continue_to_database s1 == "database" then
    let s2 := agent_guard "database" database s1
    if should_continue_to_policy s2 == "policy" then
      let s3 := agent_guard "policy" policy s2
      if should_continue_to_resolution s3 == "resolution" then
        agent_guard "resolution" resolution s3
      else s3
    else s2
  else s1

/-- runner.py lines 29-46: the fresh state created for an unseen
conversation id. -/
def init_state (conversation_id message : String) : ConvState :=
  { conversation_id := conversation_id
    current_state := "AWAITING_INTENT"
    user_message := message
    status := "in_progress" }

/-- runner.py lines 24-53: the state entering the graph, from the loaded
prior state (`none` when the store had no record). -/
def entry_state (prior : Option ConvState) (conversation_id message : String) :
    ConvState :=
  match prior with
  | none => init_state conversation_id message
  | some st =>
      { st with user_message := message, status := "in_progress", last_error := none }

/-- runner.py `run_orchestrator` (lines 10-76): load-or-init, run the
graph, apply the escalation backstop.  The final `save_state` persists
exactly this returned state. -/
def run_orchestrator (triage database policy resolution :
    ConvState → Except String ConvState)
    (prior : Option ConvState) (conversation_id message : String) : ConvState :=
  apply_escalation
    (run_graph triage database policy resolution
      (entry_state prior conversation_id message))

/-- Python substring containment on character lists (`needle in hay`). -/
def containsSub (needle : List Char) : List Char → Bool
  | [] => needle.isEmpty
  | c :: t => needle.isPrefixOf (c :: t) || containsSub needle t

/-- Python `needle in hay` on strings. -/
def strContains (hay needle : String) : Bool :=
  containsSub needle.data hay.data

/-- Python `str.lower()`, over the character list (the texts involved are
ASCII). -/
def pyLower (s : String) : String := String.mk (s.data.map Char.toLower)

/-- Helper of `pySplit`: words accumulated in reverse. -/
def pySplitAux : List Char → List Char → List String
  | [], cur => if cur.isEmpty then [] else [String.mk cur.reverse]
  | c :: rest, cur =>
      if c == ' ' then
        if cur.isEmpty then pySplitAux rest []
        else String.mk cur.reverse :: pySplitAux rest []
      else pySplitAux rest (c :: cur)

/-- Python no-argument `str.split()`: split on whitespace runs, dropping
empty words (the products involved contain no other whitespace than
spaces). -/
def pySplit (s : String) : List String := pySplitAux s.data []

/-- Output of the triage collaborator `run_triage` (triage/agent.py
lines 142-294): intent / urgency / order-id extraction is out of the
core's scope, so the result is a parameter of the embedded agent. -/
structure TriageResult where
  intent : Option String := none
  urgency : Option String := none
  order_id : Option String := none
  user_issue : Option String := none
deriving Repr, DecidableEq

/-- triage/agent.py `triage_agent` body (lines 297-378), without the
guard.  `extract` embeds the rule-based `extract_order_id` collaborator
and `rt` the `run_triage` classifier.  The open-mapping keys `query`,
`triage_summary` and `triage_confidence` are not modelled. -/
def triage_agent_body (extract : String → Option String)
    (rt : String → TriageResult) (state : ConvState) :
    Except String ConvState :=
  let message := state.user_message
  if message == "" then
    .ok { state with
      last_error := some "Empty user message"
      current_state := "HUMAN_HANDOFF" }
  else if state.awaiting_order_id && state.intent.isSome then
    match extract message with
    | some order_id =>
        .ok { state with
          entities := { state.entities with order_id := some order_id }
          awaiting_order_id := false
          current_state := "DATA_FETCH" }
    | none =>
        .ok { state with
          reply := some "I couldn\x27t find an order ID in your message. Could you please share your order number?"
          current_state := "COMPLETED" }
  else
    let result := rt message
    .ok { state with
      intent := result.intent
      urgency := result.urgency
      entities := { state.entities with
        order_id := match result.order_id with
          | some o => some o
          | none => state.entities.order_id
        user_issue := some (result.user_issue.getD message) }
      current_state := "DATA_FETCH" }

/-- Response of the `fetch_order_details` collaborator
(database/db_service.py), consumed by database/agent.py. -/
structure DbResponse where
  order_found : Bool := false
  order_details : Option OrderDetails := none
  error : Option String := none
deriving Repr, DecidableEq

/-- database/agent.py `database_agent` body (lines 9-69), without the
guard, parameterised by the order-lookup collaborator.  Accessing the
missing `order_details` key of a found response raises, i.e. is the
`.error` case.  The top-level `state["order_details"]` mirror of the
entities entry is not modelled. -/
def database_agent_body (fetch : String → DbResponse) (state : ConvState) :
    Except String ConvState :=
  match state.entities.order_id with
  | none =>
      if state.intent == some "general_question" ||
          state.intent == some "technical_issue" then
        .ok { state with
          entities := { state.entities with order_details := none }
          current_state := "POLICY_CHECK" }
      else
        .ok { state with
          reply := some "I could not find an order ID in your message. Please provide a valid order ID."
          status := "handoff"
          current_state := "HUMAN_HANDOFF" }
  | some order_id =>
      let db := fetch order_id
      if !db.order_found then
        .ok { state with
          reply := some ("Order with ID " ++ order_id ++
            " not found. Please verify your order ID.")
          status := "completed"
          current_state := "COMPLETED" }
      else
        match db.order_details with
        | none => .error "order_details"
        | some d =>
            let od := { d with amount := some (d.amount.getD 0) }
            .ok { state with
              entities := { state.entities with order_details := some od }
              current_state := "POLICY_CHECK" }

/-- Rendering of an optional value inside a Python f-string (`None` when
absent). -/
def optStr : Option String → String
  | some s => s
  | none => "None"

/-- One order row of the orders table, as returned by
`fetch_orders_by_email` and read by api/message.py. -/
structure OrderRow where
  order_id : Nat
  product : String
  status : String
  order_date : String := ""
  amount : Int := 0
deriving Repr, DecidableEq

/-- message.py line 137: one order matches when its lowercased product is
a substring of the lowercased message, or some word of the product longer
than 3 characters is. -/
def order_matches (msg_lower : String) (o : OrderRow) : Bool :=
  let prod_lower := pyLower o.product
  strContains msg_lower prod_lower ||
    (pySplit prod_lower).any
      (fun word => 3 < word.length && strContains msg_lower word)

/-- Outcome of the product-based order resolution block of
`handle_message` (message.py lines 129-180). -/
inductive ResolveOutcome where
  | fallThrough
  | adopted (order_id : String) (annotated_message : String)
  | ambiguous (reply : String) (matched : List OrderRow)
deriving Repr, DecidableEq

/-- message.py line 156: the enumerated multiple-order choice reply. -/
def ambiguous_reply (matched : List OrderRow) : String :=
  let choices := String.intercalate "\n"
    (matched.map (fun m => "- **#" ++ toString m.order_id ++ "**: " ++
      m.product ++ " (" ++ m.status ++ ")"))
  "I found multiple orders that might match your request:\n\n" ++ choices ++
    "\n\nWhich one did you want to resolve?"

/-- message.py lines 129-180: product-based order resolution for an
action intent with no explicit order id and a known caller.  With zero
keyword matches the match list becomes the single order on file, or the
whole order list; one match is adopted silently (annotating the message),
more than one yields the enumerated choice (the handler then saves
`awaiting_order_id = true`, `status = awaiting_input`); an empty order
list skips the block. -/
def product_order_resolution (message : String) (user_orders : List OrderRow) :
    ResolveOutcome :=
  match user_orders with
  | [] => .fallThrough
  | o0 :: rest =>
      let msg_lower := pyLower message
      let matched0 := (o0 :: rest).filter (order_matches msg_lower)
      let matched :=
        if matched0.isEmpty then
          if rest.isEmpty then [o0] else o0 :: rest
        else matched0
      match matched with
      | [m] =>
          .adopted (toString m.order_id)
            (message ++ " (Order #" ++ toString m.order_id ++ ")")
      | ms =>
          if 1 < ms.length then .ambiguous (ambiguous_reply ms) ms
          else .fallThrough

/-- Input of the resolution LLM collaborator (`ResolutionInput` of
resolution/app/schemas/model.py as populated by api/message.py). -/
structure ResolutionInput where
  order_id : Option String := none
  intent : String := ""
  product : Option String := none
  description : Option String := none
  quantity : Option Nat := none
  amount : Option Int := none
  status : Option String := none
  exchange_allowed : Option Bool := none
  cancel_allowed : Option Bool := none
  reason : Option String := none
deriving Repr, DecidableEq

/-- Output of the resolution LLM collaborator `run_agent_llm`. -/
structure ResolutionResult where
  action : String := ""
  message : String := ""
  return_label_url : Option String := none
  refund_amount : Option Int := none
  status : Option String := none
  reason : Option String := none
deriving Repr, DecidableEq

/-- `PolicyOutput` of api/message.py (lines 61-66). -/
structure PolicyOutput where
  policy_type : Option String := none
  allowed : Bool := false
  reason : String := ""
  policy_checked : Bool := false
deriving Repr, DecidableEq

/-- Side effects of a message.py route, recorded as data in call order:
`save_state`, `append_to_history`, `record_approved_request`, and the
best-effort CRM stage update (whose stage mapping is not modelled). -/
inductive PipeEffect where
  | save (st : ConvState)
  | hist (role content : String)
  | recordApproved (order_id : String) (user_email : String)
      (request_type : String)
  | crmUpdate (order_id : String) (action : String)
deriving Repr, DecidableEq

/-- message.py lines 1005 and 291: the intents gated behind explicit
confirmation. -/
def destructive_intents : List String := ["refund", "return", "exchange", "cancel"]

/-- Result of the resolution step of `run_pipeline`. -/
structure Step4Out where
  status : String
  action : String
  message : String
  effects : List PipeEffect
deriving Repr, DecidableEq

/-- message.py lines 1132-1154: the conversation-context persistence
closing every non-confirmation return of `run_pipeline`: a fresh dict
holding only `conversation_id` and `entities` — note it carries no
`attempts`, flag or status keys — followed by the assistant history
append. -/
def pipeline_final_save (conversation_id : String) (user_email : Option String)
    (previous_entities : Entities) (intent : String) (order_id : Option String)
    (urgency user_issue : String) (db_found : Bool)
    (db_details : Option OrderDetails) (message : String) : List PipeEffect :=
  let next_order_details :=
    if db_found then db_details else previous_entities.order_details
  let final_state : ConvState :=
    { conversation_id := conversation_id
      entities :=
        { order_id := match order_id with
            | some o => some o
            | none => previous_entities.order_id
          order_details := next_order_details
          intent := some intent
          urgency := some urgency
          user_issue := some user_issue
          user_email := user_email } }
  [PipeEffect.save final_state, PipeEffect.hist "assistant" message]

/-- message.py lines 1080-1165: the tail of the order-found branch of
`run_pipeline` once a resolution result exists: record the approved
request when applicable (lines 1080-1087), attempt the CRM stage update
(lines 1090-1106), then persist the context and reply `completed`. -/
def pipeline_finish (conversation_id : String) (user_email : Option String)
    (previous_entities : Entities) (intent : String) (order_id : Option String)
    (urgency user_issue : String)
    (db_found : Bool) (db_details : Option OrderDetails)
    (policy : PolicyOutput) (resolution_result : ResolutionResult)
    (pre_effects : List PipeEffect) : Step4Out :=
  let approved :=
    if (["refund", "return", "exchange"] : List String).contains
        resolution_result.action && policy.allowed then
      [PipeEffect.recordApproved (optStr order_id)
        (user_email.getD "guest@example.com") resolution_result.action]
    else []
  let crm := [PipeEffect.crmUpdate (optStr order_id) resolution_result.action]
  { status := "completed"
    action := resolution_result.action
    message := resolution_result.message
    effects := pre_effects ++ approved ++ crm ++
      pipeline_final_save conversation_id user_email previous_entities intent
        order_id urgency user_issue db_found db_details
        resolution_result.message }

/-- message.py lines 1029-1048: the state persisted when a destructive
intent first reaches the resolution step: pending intent, order snapshot
and policy result under `entities`, with `awaiting_confirmation` set.  The
dict carries no `attempts` key. -/
def pending_confirmation_state (conversation_id : String) (intent : String)
    (order_id : Option String) (order_details : OrderDetails)
    (policy : PolicyOutput) : ConvState :=
  { conversation_id := conversation_id
    awaiting_confirmation := true
    pending_action := some intent
    entities :=
      { order_id := order_id
        order_details := some order_details
        pending_intent := some intent
        policy_result := some
          { allowed := policy.allowed
            reason := policy.reason
            policy_type := policy.policy_type } }
    status := "awaiting_confirmation" }

/-- message.py line 1050: the confirmation prompt naming the order. -/
def confirm_prompt (order_id : Option String) (order_details : OrderDetails)
    (intent : String) : String :=
  "I found Order #" ++ optStr order_id ++ ": " ++
  optStr order_details.product ++ " (status: " ++
  optStr order_details.status ++ "). Are you sure you want to " ++ intent ++
  " this order? Please reply \x27Yes\x27 to confirm or \x27No\x27 to cancel."

/-- message.py lines 966-1165: step 4 (resolution) of `run_pipeline`,
parameterised by the resolution LLM.  With a found order and a destructive
intent whose confirmation is not already recorded as `confirmed`, the
pending intent, order snapshot and policy result are persisted with
`awaiting_confirmation` and the turn returns without invoking the LLM;
otherwise the LLM runs and `pipeline_finish` completes the turn.  The
`try`/`except` wrapper around the step (lines 1120-1128) is not modelled:
the collaborator parameter is total. -/
def run_pipeline_step4 (llm : ResolutionInput → ResolutionResult)
    (conversation_id : String) (user_email : Option String)
    (previous_state : ConvState)
    (intent : String) (order_id : Option String)
    (urgency user_issue : String)
    (db_found : Bool) (db_details : Option OrderDetails)
    (policy : PolicyOutput) : Step4Out :=
  let previous_entities := previous_state.entities
  match db_found, db_details with
  | true, some order_details =>
      let resolution_input : ResolutionInput :=
        { order_id := order_id
          intent := intent
          product := order_details.product
          description := order_details.description
          quantity := order_details.quantity
          amount := order_details.amount
          status := order_details.status
          exchange_allowed :=
            if policy.policy_type == some "exchange" ||
                policy.policy_type == some "return" then some policy.allowed
            else none
          cancel_allowed :=
            if policy.policy_type == some "refund" ||
                policy.policy_type == some "cancel" then some policy.allowed
            else none
          reason := if !policy.allowed then some policy.reason else none }
      if destructive_intents.contains intent then
        if previous_state.awaiting_confirmation &&
            previous_entities.pending_intent == some intent &&
            previous_entities.order_id == order_id &&
            previous_entities.confirmation_status == some "confirmed" then
          let resolution_result := llm resolution_input
          let prev :=
            { previous_state with
              awaiting_confirmation := false
              entities := { previous_state.entities with
                confirmation_status := none, pending_intent := none } }
          pipeline_finish conversation_id user_email previous_entities intent
            order_id urgency user_issue db_found db_details policy
            resolution_result [PipeEffect.save prev]
        else
          let pending := pending_confirmation_state conversation_id intent
            order_id order_details policy
          let confirm_message := confirm_prompt order_id order_details intent
          { status := "awaiting_confirmation"
            action := "CONFIRMATION_REQUIRED"
            message := confirm_message
            effects := [PipeEffect.save pending,
              PipeEffect.hist "assistant" confirm_message] }
      else
        pipeline_finish conversation_id user_email previous_entities intent
          order_id urgency user_issue db_found db_details policy
          (llm resolution_input) []
  | _, _ =>
      -- lines 968-975 with the order-found branch skipped: the default
      -- deny output goes straight to the context persistence
      let message := "Unable to process - no valid order or policy check"
      { status := "completed"
        action := "deny"
        message := message
        effects := pipeline_final_save conversation_id user_email
          previous_entities intent order_id urgency user_issue db_found
          db_details message }

/-- message.py line 283: the affirmation tokens of the confirmation
gate. -/
def AFFIRM_WORDS : List String := ["yes", "confirm", "proceed", "sure", "ok", "okay"]

/-- message.py line 432: the neutral decline reply. -/
def DECLINE_REPLY : String :=
  "No problem! The cancellation has been cancelled. Is there anything else I can help you with?"

/-- message.py lines 293-327: the `ResolutionInput` rebuilt for a
confirmed action from the entities stored at confirmation time — the
snapshot, not a fresh lookup. -/
def snapshot_resolution_input (previous_state : ConvState) (pa : String)
    (od : OrderDetails) : ResolutionInput :=
  let stored_policy := previous_state.entities.policy_result
  let ptype := stored_policy.bind (fun p => p.policy_type)
  let p_allowed := stored_policy.map (fun p => p.allowed)
  let p_reason := stored_policy.map (fun p => p.reason)
  { order_id := previous_state.entities.order_id
    intent := pa
    product := od.product
    description := od.description
    quantity := od.quantity
    amount := od.amount
    status := od.status
    exchange_allowed :=
      if ptype == some "exchange" || ptype == some "return" then p_allowed
      else none
    cancel_allowed :=
      if ptype == some "refund" || ptype == some "cancel" then p_allowed
      else none
    reason := if p_allowed == some false then p_reason else none }

/-- message.py lines 350-369: the fresh state saved after a confirmed
action is resolved (the dict has no `attempts`, `pending_intent` or
`confirmation_status` keys, so those are dropped). -/
def confirmation_new_state (conversation_id : String) (crm_ok : Bool)
    (previous_state : ConvState) (pa : String) (od : OrderDetails)
    (res : ResolutionResult) : ConvState :=
  { conversation_id := conversation_id
    reply := some res.message
    status := "completed"
    intent := some pa
    urgency := previous_state.urgency
    entities := { order_id := previous_state.entities.order_id
                  order_details := some od }
    agents_called := ["database", "policy", "resolution"] ++
      (if crm_ok then ["crm"] else [])
    current_state := "COMPLETED"
    awaiting_confirmation := false
    pending_action := none }

/-- Outcome of ROUTE 2 of `handle_message`: the confirmed action resolved
from the stored snapshot, the fallback that re-runs the orchestrator on a
synthesised cancel message, or the decline. -/
inductive ConfirmOutcome where
  | resolvedViaSnapshot (reply : String) (saved : ConvState)
      (effects : List PipeEffect)
  | orchestratorFallback (rerun_message : String)
  | declined (reply : String) (saved : ConvState)
deriving Repr, DecidableEq

/-- message.py lines 277-435 (ROUTE 2, entered when the prior state has
`awaiting_confirmation`).  An affirmation token routes to the
pipeline-saved pending action when the stored entities hold the order
snapshot and pending intent: the resolution LLM is re-invoked on the
snapshot and a fresh completed state is saved; without the snapshot the
code falls back to `run_orchestrator("cancel order <id>")`.  Any other
reply declines: the prior state is re-saved with only
`awaiting_confirmation` and `pending_action` cleared.  `crm_ok` is whether
the best-effort CRM update succeeded (line 345); empty-dict truthiness of
a present-but-empty snapshot is not modelled. -/
def handle_confirmation (llm : ResolutionInput → ResolutionResult)
    (crm_ok : Bool) (conversation_id message : String)
    (user_email : Option String) (previous_state : ConvState) :
    ConfirmOutcome :=
  let message_lower := pyLower message
  if AFFIRM_WORDS.any (fun w => strContains message_lower w) then
    let pending_action := previous_state.pending_action
    let pending_order_id := previous_state.entities.order_id
    match pending_action, previous_state.entities.order_details,
        previous_state.entities.pending_intent with
    | some pa, some od, some _ =>
        if destructive_intents.contains pa then
          let resolution_result :=
            llm (snapshot_resolution_input previous_state pa od)
          let new_state := confirmation_new_state conversation_id crm_ok
            previous_state pa od resolution_result
          let approved :=
            if (["refund", "return", "exchange"] : List String).contains
                resolution_result.action then
              [PipeEffect.recordApproved (optStr pending_order_id)
                (user_email.getD "guest@example.com")
                resolution_result.action]
            else []
          .resolvedViaSnapshot resolution_result.message new_state
            ([PipeEffect.crmUpdate (optStr pending_order_id)
                resolution_result.action,
              PipeEffect.save new_state] ++ approved ++
             [PipeEffect.hist "user" message,
              PipeEffect.hist "assistant" resolution_result.message])
        else .orchestratorFallback ("cancel order " ++ optStr pending_order_id)
    | _, _, _ =>
        .orchestratorFallback ("cancel order " ++ optStr pending_order_id)
  else
    .declined DECLINE_REPLY
      { previous_state with awaiting_confirmation := false, pending_action := none }

/-- Parameter names of storage/memory.py `get_history` (line 72). -/
def get_history_params : List String := ["conversation_id"]

/-- Parameter names of storage/memory.py `append_to_history` (line 82). -/
def append_to_history_params : List String :=
  ["conversation_id", "role", "content", "max_turns"]

/-- Python call binding: a call with `npos` positional arguments and the
given keyword names binds iff the positional arguments fit and every
keyword names a parameter not already filled positionally; otherwise the
call raises TypeError. -/
def bindsOk (params : List String) (npos : Nat) (kwargs : List String) : Bool :=
  decide (npos ≤ params.length) &&
    kwargs.all (fun k => (params.drop npos).contains k)

/-- Result of the `/v1/message` endpoint: a normal response or an HTTP
error raised by the `except` clause (message.py lines 534-538). -/
inductive HandlerResult where
  | response (status : String) (reply : Option String)
  | httpError (code : Nat)
deriving Repr, DecidableEq

/-- message.py lines 112-538: the top of `handle_message`.  The body runs
under one `try`: after the state load (line 114), line 119 calls
`get_history(conversation_id, user_email=...)`; if that call binds, the
remainder of the handler (`rest`) runs, otherwise the TypeError reaches
the `except` clause, which raises HTTP 500. -/
def handle_message_top (rest : String → HandlerResult)
    (conversation_id message : String) : HandlerResult :=
  if bindsOk get_history_params 1 ["user_email"] then rest message
  else .httpError 500

/-- A step body never lowers a stored invocation count (the four agents of
the repository never write to `attempts`; only the guard does). -/
def countsMonotone (f : ConvState → Except String ConvState) : Prop :=
  ∀ s t name, f s = Except.ok t →
    getCount s.attempts name ≤ getCount t.attempts name

/-- The states passed to `save_state` among a route's recorded effects. -/
def savedStates (effs : List PipeEffect) : List ConvState :=
  effs.filterMap (fun e => match e with
    | PipeEffect.save st => some st
    | _ => none)

/-! Concrete instantiations used by witnesses and counterexamples: step
bodies, collaborator outputs and states drawn from the repository's own
vocabulary (order ids, intents, seeded products). -/

/-- A step body that succeeds and moves the phase to `COMPLETED`. -/
def step_ok_completed : ConvState → Except String ConvState :=
  fun s => Except.ok { s with current_state := "COMPLETED" }

/-- A `run_triage` output for a complaint naming order 999. -/
def rt_complaint : String → TriageResult := fun m =>
  { intent := some "complaint", urgency := some "normal",
    order_id := some "999", user_issue := some m }

/-- An `extract_order_id` collaborator that finds nothing. -/
def extract_none : String → Option String := fun _ => none

/-- A `fetch_order_details` collaborator for an unknown order id. -/
def fetch_not_found : String → DbResponse := fun _ =>
  { order_found := false, error := some "Order not found" }

/-- A stored state already in handoff after a failed triage turn. -/
def c2prior : ConvState :=
  { conversation_id := "c2", current_state := "HUMAN_HANDOFF",
    status := "handoff", attempts := [("triage", 1)],
    last_error := some "triage error: boom" }

/-- A stored state whose summed counts are 6 with no count over the cap. -/
def w5prior : ConvState :=
  { conversation_id := "c5", current_state := "COMPLETED",
    attempts := [("database", 2), ("policy", 2), ("resolution", 2)] }

/-- A delivered order snapshot for order 7845. -/
def ce4od : OrderDetails :=
  { order_id := some "7845", product := some "Wireless Headphones",
    status := some "Delivered" }

/-- A stored policy result allowing a refund of order 7845. -/
def ce4policy : PolicyResult :=
  { allowed := true, reason := "Order eligible for refund",
    policy_type := some "refund" }

/-- A stored state awaiting confirmation of a refund of order 7845, as the
pipeline's confirmation branch persists it. -/
def ce4prev : ConvState :=
  { conversation_id := "c4", awaiting_confirmation := true,
    pending_action := some "refund",
    entities := { order_id := some "7845", order_details := some ce4od,
                  pending_intent := some "refund",
                  policy_result := some ce4policy },
    status := "awaiting_confirmation" }

/-- A resolution LLM echoing intent and order id. -/
def llm0 : ResolutionInput → ResolutionResult := fun inp =>
  { action := inp.intent,
    message := "Your " ++ inp.intent ++ " for order " ++ optStr inp.order_id ++
      " has been processed." }

/-- A stored state whose triage count is at the cap before a pipeline
turn. -/
def ce6prev : ConvState :=
  { conversation_id := "c6", attempts := [("triage", 2)] }

/-- The policy output of a tracking request (no validation required). -/
def ce6policy : PolicyOutput :=
  { policy_type := none, allowed := true,
    reason := "No policy validation required for \x27order_tracking\x27",
    policy_checked := false }

/-- Two seeded orders for different products under one account. -/
def ce7orders : List OrderRow :=
  [{ order_id := 101, product := "Wireless Headphones", status := "Delivered",
     order_date := "2024-01-01", amount := 50 },
   { order_id := 102, product := "Coffee Maker", status := "Shipped",
     order_date := "2024-02-02", amount := 80 }]

/-- A computed refund policy output for the confirmation-gate witness. -/
def w3policy : PolicyOutput :=
  { policy_type := some "refund", allowed := true,
    reason := "Order eligible for refund", policy_checked := true }

/-!
Helper lemmas shared by the claim theorems.
-/

theorem getCount_setCount_self (a : List (String × Nat)) (k : String) (v : Nat) :
    getCount (setCount a k v) k = v := by
  induction a with
  | nil => simp [setCount, getCount]
  | cons hd tl ih =>
    obtain ⟨k0, n0⟩ := hd
    by_cases h : k0 = k
    · subst h
      simp [setCount, getCount]
    · have hb : (k == k0) = false := by
        simp
        exact fun e => h e.symm
      simp [setCount, h, getCount, List.lookup, hb]
      simpa [getCount] using ih

theorem getCount_setCount_other (a : List (String × Nat)) (k k2 : String)
    (v : Nat) (h : k2 ≠ k) :
    getCount (setCount a k v) k2 = getCount a k2 := by
  have hb : (k2 == k) = false := by
    simp
    exact h
  induction a with
  | nil => simp [setCount, getCount, List.lookup, hb]
  | cons hd tl ih =>
    obtain ⟨k0, n0⟩ := hd
    by_cases h0 : k0 = k
    · subst h0
      simp [setCount, getCount, List.lookup, hb]
    · simp [setCount, h0, getCount, List.lookup]
      by_cases h2 : (k2 == k0) = true
      · simp [h2]
      · simp at h2
        have hb2 : (k2 == k0) = false := by
          simp
          exact h2
        simp [hb2]
        simpa [getCount] using ih

theorem sum_escalates (s : ConvState) (h : 5 < sumCounts s.attempts) :
    should_escalate s = true := by
  unfold should_escalate
  split
  · rfl
  · split
    · rfl
    · simp [h]

theorem escalate_keeps_handoff (s : ConvState)
    (h : s.current_state = "HUMAN_HANDOFF") :
    (apply_escalation s).current_state = "HUMAN_HANDOFF" ∧
    (apply_escalation s).status = "handoff" := by
  unfold apply_escalation should_escalate
  simp [h]
  split <;> simp

theorem no_escalation_identity (s : ConvState)
    (h1 : s.current_state ≠ "HUMAN_HANDOFF")
    (h2 : truthyOptStr s.last_error = false)
    (h3 : sumCounts s.attempts ≤ 5) :
    apply_escalation s = s := by
  unfold apply_escalation should_escalate
  simp [h1, h2, Nat.not_lt.mpr h3]

theorem graph_stops_triage (t d p r : ConvState → Except String ConvState)
    (s : ConvState)
    (h : (agent_guard "triage" t s).current_state ≠ "DATA_FETCH") :
    run_graph t d p r s = agent_guard "triage" t s := by
  unfold run_graph should_continue_to_database
  simp [h]

theorem graph_route_db (t d p r : ConvState → Except String ConvState)
    (s : ConvState)
    (h : (agent_guard "triage" t s).current_state = "DATA_FETCH") :
    run_graph t d p r s =
      (let s2 := agent_guard "database" d (agent_guard "triage" t s)
       if should_continue_to_policy s2 == "policy" then
         let s3 := agent_guard "policy" p s2
         if should_continue_to_resolution s3 == "resolution" then
           agent_guard "resolution" r s3
         else s3
       else s2) := by
  unfold run_graph should_continue_to_database
  simp [h]

theorem graph_route_to_resolution (t d p r : ConvState → Except String ConvState)
    (s : ConvState)
    (h1 : (agent_guard "triage" t s).current_state = "DATA_FETCH")
    (h2 : (agent_guard "database" d (agent_guard "triage" t s)).current_state =
      "POLICY_CHECK") :
    run_graph t d p r s =
      (let s3 := agent_guard "policy" p
        (agent_guard "database" d (agent_guard "triage" t s))
       if should_continue_to_resolution s3 == "resolution" then
         agent_guard "resolution" r s3
       else s3) := by
  unfold run_graph should_continue_to_database should_continue_to_policy
  simp [h1, h2]

theorem apply_escalation_attempts (s : ConvState) :
    (apply_escalation s).attempts = s.attempts := by
  unfold apply_escalation
  by_cases h : should_escalate s = true
  · simp [h]
    by_cases h2 : truthyOptStr s.reply = true <;> simp [h2]
  · simp [h]

theorem guard_counts_monotone (agent_name : String)
    (f : ConvState → Except String ConvState) (hf : countsMonotone f)
    (s : ConvState) (name : String) :
    getCount s.attempts name ≤
      getCount (agent_guard agent_name f s).attempts name := by
  unfold agent_guard
  by_cases hcap : MAX_AGENT_CALLS ≤ getCount s.attempts agent_name
  · simp [hcap]
  · simp [hcap]
    have hmid : getCount s.attempts name ≤
        getCount (setCount s.attempts agent_name
          (getCount s.attempts agent_name + 1)) name := by
      by_cases h : name = agent_name
      · subst h
        rw [getCount_setCount_self]
        omega
      · rw [getCount_setCount_other _ _ _ _ h]
    split
    · next u heq =>
      exact le_trans hmid (hf _ _ name heq)
    · next e heq =>
      simpa using hmid

theorem graph_counts_monotone (t d p r : ConvState → Except String ConvState)
    (ht : countsMonotone t) (hd : countsMonotone d) (hp : countsMonotone p)
    (hr : countsMonotone r) (s : ConvState) (name : String) :
    getCount s.attempts name ≤
      getCount (run_graph t d p r s).attempts name := by
  unfold run_graph
  by_cases hA : (should_continue_to_database (agent_guard "triage" t s) ==
      "database") = true
  · by_cases hB : (should_continue_to_policy (agent_guard "database" d
        (agent_guard "triage" t s)) == "policy") = true
    · by_cases hC : (should_continue_to_resolution (agent_guard "policy" p
          (agent_guard "database" d (agent_guard "triage" t s))) ==
          "resolution") = true
      · simp [hA, hB, hC]
        exact le_trans (guard_counts_monotone _ t ht s name)
          (le_trans (guard_counts_monotone _ d hd _ name)
            (le_trans (guard_counts_monotone _ p hp _ name)
              (guard_counts_monotone _ r hr _ name)))
      · simp [hA, hB, hC]
        exact le_trans (guard_counts_monotone _ t ht s name)
          (le_trans (guard_counts_monotone _ d hd _ name)
            (guard_counts_monotone _ p hp _ name))
    · simp [hA, hB]
      exact le_trans (guard_counts_monotone _ t ht s name)
        (guard_counts_monotone _ d hd _ name)
  · simp [hA]
    exact guard_counts_monotone _ t ht s name

theorem step_ok_completed_monotone : countsMonotone step_ok_completed := by
  intro s u name h
  unfold step_ok_completed at h
  injection h with h
  rw [← h]

/-!
The claim theorems.
-/

/-- C1: for every conversation state and step name, invoking the guarded
step when the recorded invocation count is already at least
`MAX_AGENT_CALLS` (2) returns a state with phase `HUMAN_HANDOFF`, status
`handoff` and `last_error` the exceeded-retry-limit message, and the
result does not depend on the wrapped step function — it is never
called. -/
theorem guard_cap_blocks_step (agent_name : String)
    (f : ConvState → Except String ConvState) (state : ConvState)
    (h : MAX_AGENT_CALLS ≤ getCount state.attempts agent_name) :
    (agent_guard agent_name f state).current_state = "HUMAN_HANDOFF" ∧
    (agent_guard agent_name f state).status = "handoff" ∧
    (agent_guard agent_name f state).last_error =
      some (agent_name ++ " exceeded retry limit (2 attempts)") ∧
    ∀ g, agent_guard agent_name f state = agent_guard agent_name g state := by
  unfold agent_guard
  simp [h]
  rw [String.append_assoc, String.append_assoc]
  rfl

/-- C1 witness: a triage count of 2 triggers the blocked branch. -/
theorem guard_cap_blocks_step_witness :
    (agent_guard "triage" (fun s => Except.ok s)
      { conversation_id := "c", attempts := [("triage", 2)] }).current_state =
      "HUMAN_HANDOFF" :=
  (guard_cap_blocks_step "triage" (fun s => Except.ok s)
    { conversation_id := "c", attempts := [("triage", 2)] } (by decide)).1

/-- C9: for every guarded step whose count is under the cap, an exception
of the wrapped step is caught: the guard returns a state with phase
`HUMAN_HANDOFF`, status `handoff` and `last_error` the
step-name-and-message diagnostic; the guard is a total function, so no
exception propagates. -/
theorem guard_absorbs_step_exceptions (agent_name : String)
    (f : ConvState → Except String ConvState) (state : ConvState) (e : String)
    (hcap : getCount state.attempts agent_name < MAX_AGENT_CALLS)
    (herr : f { state with
        attempts := setCount state.attempts agent_name
          (getCount state.attempts agent_name + 1)
        agents_called := state.agents_called ++ [agent_name] } =
        Except.error e) :
    (agent_guard agent_name f state).current_state = "HUMAN_HANDOFF" ∧
    (agent_guard agent_name f state).status = "handoff" ∧
    (agent_guard agent_name f state).last_error =
      some (agent_name ++ " error: " ++ e) := by
  unfold agent_guard
  simp [Nat.not_le.mpr hcap, herr]

/-- C9 witness: a step raising "Test error" yields the converted
diagnostic. -/
theorem guard_absorbs_step_exceptions_witness :
    (agent_guard "triage" (fun _ => Except.error "Test error")
      { conversation_id := "c" }).last_error =
      some ("triage" ++ " error: " ++ "Test error") :=
  (guard_absorbs_step_exceptions "triage" (fun _ => Except.error "Test error")
    { conversation_id := "c" } "Test error" (by decide) rfl).2.2

/-- C5: after a pipeline run, when the summed per-step counts of the graph
result exceed 5 (no condition on any single count), the escalation
backstop fires: the returned state has phase `HUMAN_HANDOFF` and status
`handoff`, and a falsy reply is replaced by the default apology. -/
theorem cumulative_attempts_escalate
    (t d p r : ConvState → Except String ConvState)
    (prior : Option ConvState) (cid msg : String)
    (h : 5 < sumCounts
      (run_graph t d p r (entry_state prior cid msg)).attempts) :
    (run_orchestrator t d p r prior cid msg).current_state =
      "HUMAN_HANDOFF" ∧
    (run_orchestrator t d p r prior cid msg).status = "handoff" ∧
    (truthyOptStr (run_graph t d p r (entry_state prior cid msg)).reply =
        false →
      (run_orchestrator t d p r prior cid msg).reply =
        some ESCALATION_REPLY) := by
  unfold run_orchestrator apply_escalation
  simp [sum_escalates _ h]
  refine ⟨?_, ?_, ?_⟩
  · split <;> rfl
  · split <;> rfl
  · intro hr
    simp [hr]

/-- C5 witness: stored counts 2+2+2 (none above the cap of 2) plus one
fresh triage call sum to 7, forcing handoff with the default apology. -/
theorem cumulative_attempts_escalate_witness :
    (run_orchestrator step_ok_completed step_ok_completed step_ok_completed
      step_ok_completed (some w5prior) "c5" "hello").current_state =
      "HUMAN_HANDOFF" ∧
    (run_orchestrator step_ok_completed step_ok_completed step_ok_completed
      step_ok_completed (some w5prior) "c5" "hello").status = "handoff" :=
  ⟨(cumulative_attempts_escalate step_ok_completed step_ok_completed
      step_ok_completed step_ok_completed (some w5prior) "c5" "hello"
      (by decide)).1,
   (cumulative_attempts_escalate step_ok_completed step_ok_completed
      step_ok_completed step_ok_completed (some w5prior) "c5" "hello"
      (by decide)).2.1⟩

/-- C2 counterexample: handoff is not absorbing across turns.  A stored
state in phase `HUMAN_HANDOFF` (after a failed triage turn, triage count
1) is followed by a turn whose triage classifies a complaint naming order
999 and whose lookup finds nothing: the runner clears `last_error`,
re-enters the graph at triage, and the turn produces phase `COMPLETED`. -/
theorem handoff_cleared_on_next_turn :
    c2prior.current_state = "HUMAN_HANDOFF" ∧
    (run_orchestrator (triage_agent_body extract_none rt_complaint)
      (database_agent_body fetch_not_found) step_ok_completed
      step_ok_completed (some c2prior) "c2"
      "very disappointed with order 999").current_state = "COMPLETED" ∧
    (run_orchestrator (triage_agent_body extract_none rt_complaint)
      (database_agent_body fetch_not_found) step_ok_completed
      step_ok_completed (some c2prior) "c2"
      "very disappointed with order 999").current_state ≠
      "HUMAN_HANDOFF" := by
  refine ⟨rfl, by decide, by decide⟩

/-- C2 amended: `HUMAN_HANDOFF` is absorbing within a single turn — once
any executed step of the turn leaves phase `HUMAN_HANDOFF`, the remaining
routing ends the graph and the turn's final state keeps phase
`HUMAN_HANDOFF` with status `handoff`.  Across turns the runner resets
`last_error` and re-enters the graph at triage, so a later successful
turn can leave handoff (see the counterexample). -/
theorem handoff_absorbing_within_turn
    (t d p r : ConvState → Except String ConvState)
    (prior : Option ConvState) (cid msg : String) :
    ((agent_guard "triage" t (entry_state prior cid msg)).current_state =
        "HUMAN_HANDOFF" →
      (run_orchestrator t d p r prior cid msg).current_state =
        "HUMAN_HANDOFF" ∧
      (run_orchestrator t d p r prior cid msg).status = "handoff") ∧
    ((agent_guard "triage" t (entry_state prior cid msg)).current_state =
        "DATA_FETCH" →
      (agent_guard "database" d
        (agent_guard "triage" t (entry_state prior cid msg))).current_state =
        "HUMAN_HANDOFF" →
      (run_orchestrator t d p r prior cid msg).current_state =
        "HUMAN_HANDOFF" ∧
      (run_orchestrator t d p r prior cid msg).status = "handoff") ∧
    ((agent_guard "triage" t (entry_state prior cid msg)).current_state =
        "DATA_FETCH" →
      (agent_guard "database" d
        (agent_guard "triage" t (entry_state prior cid msg))).current_state =
        "POLICY_CHECK" →
      (agent_guard "policy" p (agent_guard "database" d
        (agent_guard "triage" t (entry_state prior cid msg)))).current_state =
        "HUMAN_HANDOFF" →
      (run_orchestrator t d p r prior cid msg).current_state =
        "HUMAN_HANDOFF" ∧
      (run_orchestrator t d p r prior cid msg).status = "handoff") ∧
    ((agent_guard "triage" t (entry_state prior cid msg)).current_state =
        "DATA_FETCH" →
      (agent_guard "database" d
        (agent_guard "triage" t (entry_state prior cid msg))).current_state =
        "POLICY_CHECK" →
      (agent_guard "policy" p (agent_guard "database" d
        (agent_guard "triage" t (entry_state prior cid msg)))).current_state =
        "RESOLUTION" →
      (agent_guard "resolution" r (agent_guard "policy" p
        (agent_guard "database" d (agent_guard "triage" t
          (entry_state prior cid msg))))).current_state = "HUMAN_HANDOFF" →
      (run_orchestrator t d p r prior cid msg).current_state =
        "HUMAN_HANDOFF" ∧
      (run_orchestrator t d p r prior cid msg).status = "handoff") := by
  refine ⟨?_, ?_, ?_, ?_⟩
  · intro h1
    have hg : run_graph t d p r (entry_state prior cid msg) =
        agent_guard "triage" t (entry_state prior cid msg) := by
      apply graph_stops_triage
      rw [h1]
      decide
    unfold run_orchestrator
    rw [hg]
    exact escalate_keeps_handoff _ h1
  · intro h1 h2
    have hg : run_graph t d p r (entry_state prior cid msg) =
        agent_guard "database" d
          (agent_guard "triage" t (entry_state prior cid msg)) := by
      rw [graph_route_db t d p r _ h1]
      simp [should_continue_to_policy, h2]
    unfold run_orchestrator
    rw [hg]
    exact escalate_keeps_handoff _ h2
  · intro h1 h2 h3
    have hg : run_graph t d p r (entry_state prior cid msg) =
        agent_guard "policy" p (agent_guard "database" d
          (agent_guard "triage" t (entry_state prior cid msg))) := by
      rw [graph_route_to_resolution t d p r _ h1 h2]
      simp [should_continue_to_resolution, h3]
    unfold run_orchestrator
    rw [hg]
    exact escalate_keeps_handoff _ h3
  · intro h1 h2 h3 h4
    have hg : run_graph t d p r (entry_state prior cid msg) =
        agent_guard "resolution" r (agent_guard "policy" p
          (agent_guard "database" d (agent_guard "triage" t
            (entry_state prior cid msg)))) := by
      rw [graph_route_to_resolution t d p r _ h1 h2]
      simp [should_continue_to_resolution, h3]
    unfold run_orchestrator
    rw [hg]
    exact escalate_keeps_handoff _ h4

/-- C2 witness: a triage step that raises puts the turn in handoff, and
the turn ends in handoff. -/
theorem handoff_absorbing_within_turn_witness :
    (run_orchestrator (fun _ => Except.error "boom") step_ok_completed
      step_ok_completed step_ok_completed none "c2w" "hi").current_state =
      "HUMAN_HANDOFF" :=
  ((handoff_absorbing_within_turn (fun _ => Except.error "boom")
    step_ok_completed step_ok_completed step_ok_completed none "c2w"
    "hi").1 (by decide)).1

/-- C3: a destructive intent (refund, return, exchange, cancel) reaching
the pipeline's resolution step with a found order and a computed policy
result, when the prior state is not awaiting confirmation, does not
execute the resolution action: the turn persists the pending intent, the
order snapshot and the policy result with `awaiting_confirmation` set,
returns status `awaiting_confirmation` with the confirmation prompt
naming the order, records no approval or CRM effect, and the outcome is
independent of the resolution LLM — the action can only run on a later
turn, after the confirmation round-trip. -/
theorem destructive_first_encounter_pauses
    (llm llm2 : ResolutionInput → ResolutionResult)
    (cid : String) (ue : Option String) (prev : ConvState)
    (intent oid urgency uissue : String) (od : OrderDetails)
    (policy : PolicyOutput)
    (hint : destructive_intents.contains intent = true)
    (hconf : prev.awaiting_confirmation = false) :
    run_pipeline_step4 llm cid ue prev intent (some oid) urgency uissue
      true (some od) policy =
      { status := "awaiting_confirmation"
        action := "CONFIRMATION_REQUIRED"
        message := confirm_prompt (some oid) od intent
        effects := [PipeEffect.save
            (pending_confirmation_state cid intent (some oid) od policy),
          PipeEffect.hist "assistant" (confirm_prompt (some oid) od intent)] } ∧
    (pending_confirmation_state cid intent (some oid) od
      policy).awaiting_confirmation = true ∧
    (pending_confirmation_state cid intent (some oid) od policy).status =
      "awaiting_confirmation" ∧
    (pending_confirmation_state cid intent (some oid) od
      policy).entities.pending_intent = some intent ∧
    (pending_confirmation_state cid intent (some oid) od
      policy).entities.order_details = some od ∧
    (pending_confirmation_state cid intent (some oid) od
      policy).entities.policy_result =
      some { allowed := policy.allowed, reason := policy.reason,
             policy_type := policy.policy_type } ∧
    run_pipeline_step4 llm2 cid ue prev intent (some oid) urgency uissue
      true (some od) policy =
    run_pipeline_step4 llm cid ue prev intent (some oid) urgency uissue
      true (some od) policy := by
  unfold run_pipeline_step4
  have hmem : intent ∈ destructive_intents := by simpa using hint
  simp [hmem, hconf, pending_confirmation_state]

/-- C3 witness: a first refund request for found order 7845 pauses with
status awaiting_confirmation. -/
theorem destructive_first_encounter_pauses_witness :
    (run_pipeline_step4 llm0 "c3" none { conversation_id := "c3" } "refund"
      (some "7845") "high" "refund request" true (some ce4od)
      w3policy).status = "awaiting_confirmation" := by
  rw [(destructive_first_encounter_pauses llm0 llm0 "c3" none
    { conversation_id := "c3" } "refund" "7845" "high" "refund request"
    ce4od w3policy (by decide) rfl).1]

/-- C4 counterexample: a decline does not clear the pending-intent field.
With a pipeline-saved pending refund in the stored entities, the reply
"no" yields the neutral decline with status completed, but the saved
state still carries `entities.pending_intent = "refund"` — the claim's
"clears the same fields" fails for the decline branch. -/
theorem decline_keeps_pending_intent :
    (∃ saved, handle_confirmation llm0 false "c4" "no" none ce4prev =
        ConfirmOutcome.declined DECLINE_REPLY saved ∧
      saved.entities.pending_intent = some "refund" ∧
      saved.entities.pending_intent ≠ none) := by
  refine ⟨{ ce4prev with awaiting_confirmation := false, pending_action := none },
    ?_, ?_, ?_⟩
  · decide
  · rfl
  · decide

/-- C4 amended: with the prior state awaiting confirmation, an
affirmation token together with a pipeline-saved pending destructive
action (stored order snapshot and pending intent) re-invokes the
resolution LLM on the stored snapshot and saves a fresh completed state
in which `awaiting_confirmation` is false, `pending_action` is none and
the replacement entities carry no `pending_intent` or
`confirmation_status`; any other reply returns the neutral decline with
status completed and no resolution invocation (the outcome is
independent of the LLM), clearing only `awaiting_confirmation` and
`pending_action` while the stored entities — including any
`pending_intent` — are kept. -/
theorem confirmation_reply_routes (llm : ResolutionInput → ResolutionResult)
    (crm_ok : Bool) (cid msg : String) (ue : Option String)
    (prev : ConvState) (pa : String) (od : OrderDetails) :
    (AFFIRM_WORDS.any (fun w => strContains (pyLower msg) w) = true →
     prev.pending_action = some pa →
     destructive_intents.contains pa = true →
     prev.entities.order_details = some od →
     prev.entities.pending_intent.isSome = true →
     ∃ effects,
       handle_confirmation llm crm_ok cid msg ue prev =
         ConfirmOutcome.resolvedViaSnapshot
           (llm (snapshot_resolution_input prev pa od)).message
           (confirmation_new_state cid crm_ok prev pa od
             (llm (snapshot_resolution_input prev pa od))) effects) ∧
    ((confirmation_new_state cid crm_ok prev pa od
        (llm (snapshot_resolution_input prev pa od))).status = "completed" ∧
     (confirmation_new_state cid crm_ok prev pa od
        (llm (snapshot_resolution_input prev pa od))).awaiting_confirmation =
        false ∧
     (confirmation_new_state cid crm_ok prev pa od
        (llm (snapshot_resolution_input prev pa od))).pending_action = none ∧
     (confirmation_new_state cid crm_ok prev pa od
        (llm (snapshot_resolution_input prev pa od))).entities.pending_intent =
        none ∧
     (confirmation_new_state cid crm_ok prev pa od
        (llm (snapshot_resolution_input prev pa
          od))).entities.confirmation_status = none) ∧
    (AFFIRM_WORDS.any (fun w => strContains (pyLower msg) w) = false →
     handle_confirmation llm crm_ok cid msg ue prev =
       ConfirmOutcome.declined DECLINE_REPLY
         { prev with awaiting_confirmation := false, pending_action := none } ∧
     (∀ g : ResolutionInput → ResolutionResult,
        handle_confirmation g crm_ok cid msg ue prev =
          handle_confirmation llm crm_ok cid msg ue prev)) := by
  refine ⟨?_, ⟨rfl, rfl, rfl, rfl, rfl⟩, ?_⟩
  · intro haff hpa hdest hod hpi
    obtain ⟨pi, hpi2⟩ := Option.isSome_iff_exists.mp hpi
    have hmem : pa ∈ destructive_intents := by simpa using hdest
    unfold handle_confirmation
    simp [haff, hpa, hod, hpi2, hmem]
  · intro hneg
    unfold handle_confirmation
    simp [hneg]

/-- C4 witness: the reply "yes" on the stored pending refund of order
7845 resolves from the snapshot. -/
theorem confirmation_reply_routes_witness :
    ∃ effects, handle_confirmation llm0 false "c4" "yes" none ce4prev =
      ConfirmOutcome.resolvedViaSnapshot
        (llm0 (snapshot_resolution_input ce4prev "refund" ce4od)).message
        (confirmation_new_state "c4" false ce4prev "refund" ce4od
          (llm0 (snapshot_resolution_input ce4prev "refund" ce4od)))
        effects :=
  (confirmation_reply_routes llm0 false "c4" "yes" none ce4prev "refund"
    ce4od).1 (by decide) rfl (by decide) rfl rfl

/-- C6 counterexample: the per-step counts are reset by the pipeline's
context persistence.  With a stored triage count of 2, a tracking turn
through the pipeline's resolution step saves a replacement state carrying
no `attempts` key, so every stored count — observed through
`attempts.get(name, 0)` — drops to 0. -/
theorem pipeline_save_drops_attempts :
    getCount ce6prev.attempts "triage" = 2 ∧
    savedStates (run_pipeline_step4 llm0 "c6" (some "u@example.com") ce6prev
      "order_tracking" (some "7845") "normal" "track my order" true
      (some ce4od) ce6policy).effects ≠ [] ∧
    (savedStates (run_pipeline_step4 llm0 "c6" (some "u@example.com") ce6prev
      "order_tracking" (some "7845") "normal" "track my order" true
      (some ce4od) ce6policy).effects).all
      (fun st => getCount st.attempts "triage" == 0) = true := by
  refine ⟨by decide, by decide, by decide⟩

/-- C6 amended: within the orchestrator the counts never decrease — the
guard only increments and the escalation backstop leaves `attempts`
untouched, so a turn over count-preserving step bodies never lowers any
stored count; outside the orchestrator, the message routes persist
replacement states without the `attempts` key, resetting the counts (see
the counterexample). -/
theorem attempts_monotone_in_orchestrator
    (t d p r : ConvState → Except String ConvState)
    (ht : countsMonotone t) (hd : countsMonotone d) (hp : countsMonotone p)
    (hr : countsMonotone r) (prior : ConvState) (cid msg : String)
    (name : String) :
    getCount prior.attempts name ≤
      getCount (run_orchestrator t d p r (some prior) cid msg).attempts
        name := by
  unfold run_orchestrator
  rw [apply_escalation_attempts]
  have hentry : (entry_state (some prior) cid msg).attempts =
    prior.attempts := rfl
  have hg := graph_counts_monotone t d p r ht hd hp hr
    (entry_state (some prior) cid msg) name
  rw [hentry] at hg
  exact hg

/-- C6 witness: an orchestrator turn over count-preserving steps does not
lower the stored triage count. -/
theorem attempts_monotone_in_orchestrator_witness :
    getCount ce6prev.attempts "triage" ≤
      getCount (run_orchestrator step_ok_completed step_ok_completed
        step_ok_completed step_ok_completed (some ce6prev) "c6"
        "hello").attempts "triage" :=
  attempts_monotone_in_orchestrator step_ok_completed step_ok_completed
    step_ok_completed step_ok_completed step_ok_completed_monotone
    step_ok_completed_monotone step_ok_completed_monotone
    step_ok_completed_monotone ce6prev "c6" "hello" "triage"

set_option maxRecDepth 4000 in
/-- C7 counterexample: with a known caller owning two orders of different
products and a destructive message matching neither ("i want a refund"),
the handler does not fall through to the ask-for-order-id path: it
enumerates both orders and pauses for input. -/
theorem zero_matches_not_fallthrough :
    product_order_resolution "i want a refund" ce7orders =
      ResolveOutcome.ambiguous (ambiguous_reply ce7orders) ce7orders ∧
    product_order_resolution "i want a refund" ce7orders ≠
      ResolveOutcome.fallThrough := by
  refine ⟨by decide, by decide⟩

/-- C7 amended: when no product keyword of the message matches any of the
caller's orders and more than one order is on file, the match list
becomes the whole order list and the handler returns the enumerated
multiple-order choice (saving `awaiting_order_id` with status
`awaiting_input`) instead of falling through to the generic
ask-for-order-id path. -/
theorem zero_matches_enumerates_all_orders (message : String)
    (orders : List OrderRow) (h1 : 1 < orders.length)
    (h2 : orders.all (fun o => !(order_matches (pyLower message) o)) = true) :
    product_order_resolution message orders =
      ResolveOutcome.ambiguous (ambiguous_reply orders) orders := by
  match orders, h1 with
  | o0 :: o1 :: rest2, _ =>
    unfold product_order_resolution
    have hf : (o0 :: o1 :: rest2).filter
        (order_matches (pyLower message)) = [] := by
      rw [List.filter_eq_nil_iff]
      intro a ha
      have := List.all_eq_true.mp h2 a ha
      simpa using this
    simp [hf]

set_option maxRecDepth 4000 in
/-- C7 witness: both seeded orders are enumerated for the keyword-free
message. -/
theorem zero_matches_enumerates_all_orders_witness :
    product_order_resolution "i want a refund" ce7orders =
      ResolveOutcome.ambiguous (ambiguous_reply ce7orders) ce7orders :=
  zero_matches_enumerates_all_orders "i want a refund" ce7orders
    (by decide) (by decide)

/-- C8 counterexample: an unexpected phase is not routed to handoff.  On
a fresh conversation, triage classifies a complaint naming order 999 and
the lookup finds no such order, leaving phase `COMPLETED` after the
database step — neither `HUMAN_HANDOFF` nor the expected `POLICY_CHECK` —
and the turn ends with phase `COMPLETED` and status `completed`, not
handoff. -/
theorem unexpected_phase_without_handoff :
    (agent_guard "database" (database_agent_body fetch_not_found)
      (agent_guard "triage" (triage_agent_body extract_none rt_complaint)
        (entry_state none "c8" "very disappointed with order 999"))).current_state =
      "COMPLETED" ∧
    (run_orchestrator (triage_agent_body extract_none rt_complaint)
      (database_agent_body fetch_not_found) step_ok_completed
      step_ok_completed none "c8"
      "very disappointed with order 999").current_state = "COMPLETED" ∧
    (run_orchestrator (triage_agent_body extract_none rt_complaint)
      (database_agent_body fetch_not_found) step_ok_completed
      step_ok_completed none "c8"
      "very disappointed with order 999").status = "completed" := by
  refine ⟨by decide, by decide, by decide⟩

/-- C8 amended: a post-step phase that is neither `HUMAN_HANDOFF` nor the
expected next phase routes the graph to END: the pipeline stops and the
turn returns that state unchanged whenever the escalation predicate does
not hold — no handoff phase or status is forced by the routing itself. -/
theorem unexpected_phase_stops_graph
    (t d p r : ConvState → Except String ConvState)
    (prior : Option ConvState) (cid msg : String)
    (h1 : (agent_guard "triage" t (entry_state prior cid msg)).current_state ≠
      "DATA_FETCH")
    (h2 : (agent_guard "triage" t (entry_state prior cid msg)).current_state ≠
      "HUMAN_HANDOFF")
    (h3 : truthyOptStr
      (agent_guard "triage" t (entry_state prior cid msg)).last_error = false)
    (h4 : sumCounts
      (agent_guard "triage" t (entry_state prior cid msg)).attempts ≤ 5) :
    run_orchestrator t d p r prior cid msg =
      agent_guard "triage" t (entry_state prior cid msg) := by
  unfold run_orchestrator
  rw [graph_stops_triage t d p r _ h1]
  exact no_escalation_identity _ h2 h3 h4

/-- C8 witness: a triage step leaving the unexpected phase `COMPLETED` on
a fresh conversation ends the turn with that state unchanged. -/
theorem unexpected_phase_stops_graph_witness :
    run_orchestrator step_ok_completed step_ok_completed step_ok_completed
      step_ok_completed none "c8w" "hello" =
    agent_guard "triage" step_ok_completed (entry_state none "c8w" "hello") :=
  unexpected_phase_stops_graph step_ok_completed step_ok_completed
    step_ok_completed step_ok_completed none "c8w" "hello" (by decide)
    (by decide) (by decide) (by decide)

/-- C10: the `/v1/message` handler calls `get_history` (and later
`append_to_history`) with a `user_email` keyword that the storage
functions do not accept, so the call raises TypeError on every request:
the handler's except branch raises HTTP 500 regardless of the rest of
the route logic. -/
theorem message_handler_raises_500 (rest : String → HandlerResult)
    (conversation_id message : String) :
    bindsOk get_history_params 1 ["user_email"] = false ∧
    bindsOk append_to_history_params 3 ["user_email"] = false ∧
    handle_message_top rest conversation_id message =
      HandlerResult.httpError 500 :=
  ⟨by decide, by decide, rfl⟩

end ACSS
